
import Mathlib

set_option maxRecDepth 4000

/-!
Verification of the policy-value network in `src/training/model.py` of
DeepTitan/pokemon-tcg-ai, together with its graph-manifest builder and
weight interchange codec (`_build_graph_manifest`, `export_weights`,
`load_weights`).

The Python code computes with 32-bit floats; this development embeds it
over the real numbers.  The only non-finite float values reachable in the
program are the `-inf` sentinel written into masked score positions
(modelled by `⊥ : WithBot ℝ`) and the `NaN`s produced by the softmax when
every score is `-inf` (modelled by `none : Option ℝ`); everywhere else the
arithmetic is the real-number idealisation of the float arithmetic.
-/

namespace PTCG

/-- Constant `STATE_SIZE = 501` from model.py. -/
def STATE_SIZE : ℕ := 501

/-- Constant `ACTION_SIZE = 54` from model.py. -/
def ACTION_SIZE : ℕ := 54

/-- Parameters of an `nn.Linear(ni, no)` module: `weight` has shape
`(out_features, in_features)` and the layer computes `x ↦ weight · x + bias`. -/
structure LinearParams (ni no : ℕ) where
  weight : Fin no → Fin ni → ℝ
  bias : Fin no → ℝ

/-- Parameters of an `nn.LayerNorm(n)` module (elementwise affine):
the module's `weight` is the scale `gamma`, its `bias` the shift `beta`. -/
structure LayerNormParams (n : ℕ) where
  gamma : Fin n → ℝ
  beta : Fin n → ℝ

noncomputable section

/-- Forward pass of `nn.Linear`: `y_j = Σ_k weight_{jk} x_k + bias_j`. -/
def linearF {ni no : ℕ} (p : LinearParams ni no) (x : Fin ni → ℝ) : Fin no → ℝ :=
  fun j => (∑ k, p.weight j k * x k) + p.bias j

/-- Default `eps` of `nn.LayerNorm` (1e-5). -/
def lnEps : ℝ := 1 / 100000

/-- Mean of a vector over its feature dimension. -/
def meanF {n : ℕ} (x : Fin n → ℝ) : ℝ := (∑ k, x k) / n

/-- Biased variance of a vector over its feature dimension. -/
def varF {n : ℕ} (x : Fin n → ℝ) : ℝ := (∑ k, (x k - meanF x) ^ 2) / n

/-- Forward pass of `nn.LayerNorm` at inference: per-example
standardisation over the feature dimension followed by the learned affine
correction `gamma, beta`. -/
def layerNormF {n : ℕ} (p : LayerNormParams n) (x : Fin n → ℝ) : Fin n → ℝ :=
  fun j => (x j - meanF x) / Real.sqrt (varF x + lnEps) * p.gamma j + p.beta j

/-- Function `F.relu`: elementwise `max 0 x`. -/
def reluF {n : ℕ} (x : Fin n → ℝ) : Fin n → ℝ := fun j => max 0 (x j)

/-- Parameters of `StateEncoder` (model.py lines 27-40): `fc1 = Linear(501, 512)`,
`ln1 = LayerNorm(512)`, `fc2 = Linear(512, 256)`, `ln2 = LayerNorm(256)`,
registered in this order.  Default constructor arguments `hidden=512, embed=256`. -/
structure StateEncoder where
  fc1 : LinearParams 501 512
  ln1 : LayerNormParams 512
  fc2 : LinearParams 512 256
  ln2 : LayerNormParams 256

/-- Forward pass of `StateEncoder`: `x = relu(ln1(fc1 x)); x = relu(ln2(fc2 x))`. -/
def StateEncoder.forward (m : StateEncoder) (x : Fin 501 → ℝ) : Fin 256 → ℝ :=
  reluF (layerNormF m.ln2 (linearF m.fc2 (reluF (layerNormF m.ln1 (linearF m.fc1 x)))))

/-- Parameters of `ActionEncoder` (model.py lines 43-55): `fc1 = Linear(54, 128)`,
`ln1 = LayerNorm(128)`, `fc2 = Linear(128, 64)`, registered in this order.
Default constructor arguments `hidden=128, embed=64`. -/
structure ActionEncoder where
  fc1 : LinearParams 54 128
  ln1 : LayerNormParams 128
  fc2 : LinearParams 128 64

/-- Forward pass of `ActionEncoder`: `x = relu(ln1(fc1 x)); x = fc2 x`. -/
def ActionEncoder.forward (m : ActionEncoder) (x : Fin 54 → ℝ) : Fin 64 → ℝ :=
  linearF m.fc2 (reluF (layerNormF m.ln1 (linearF m.fc1 x)))

/-- Parameters of `ActionScorer` (model.py lines 58-71): `fc1 = Linear(256+64, 128)`,
`ln1 = LayerNorm(128)`, `fc2 = Linear(128, 1)`, registered in this order. -/
structure ActionScorer where
  fc1 : LinearParams 320 128
  ln1 : LayerNormParams 128
  fc2 : LinearParams 128 1

/-- Concatenation `torch.cat([state_embed, action_embed], dim=-1)` for one example. -/
def catF (s : Fin 256 → ℝ) (a : Fin 64 → ℝ) : Fin 320 → ℝ :=
  fun k => if h : (k : ℕ) < 256 then s ⟨k, h⟩ else a ⟨(k : ℕ) - 256, by omega⟩

/-- Forward pass of `ActionScorer`: concatenate, `relu(ln1(fc1 x))`, `fc2`, squeeze the
final singleton dimension. -/
def ActionScorer.forward (m : ActionScorer) (s : Fin 256 → ℝ) (a : Fin 64 → ℝ) : ℝ :=
  linearF m.fc2 (reluF (layerNormF m.ln1 (linearF m.fc1 (catF s a)))) 0

/-- Parameters of `ValueHead` (model.py lines 74-85): `fc1 = Linear(256, 128)`,
`fc2 = Linear(128, 1)`, registered in this order.  No normalization layer. -/
structure ValueHead where
  fc1 : LinearParams 256 128
  fc2 : LinearParams 128 1

/-- Forward pass of `ValueHead`: `x = relu(fc1 x); x = tanh(fc2 x)`, squeezed. -/
def ValueHead.forward (m : ValueHead) (x : Fin 256 → ℝ) : ℝ :=
  Real.tanh (linearF m.fc2 (reluF (linearF m.fc1 x)) 0)

/-- Parameters of `PolicyValueNetwork` (model.py lines 88-103): the five
sub-networks, with `value_state_encoder` an independently parameterised second
`StateEncoder`. -/
structure PolicyValueNetwork where
  state_encoder : StateEncoder
  value_state_encoder : StateEncoder
  action_encoder : ActionEncoder
  action_scorer : ActionScorer
  value_head : ValueHead

variable {M : ℕ}

/-- Raw (pre-mask) score of each action: the scorer applied to the broadcast
state embedding and the per-action embedding (model.py lines 117-135). -/
def rawScores (m : PolicyValueNetwork) (states : Fin 501 → ℝ)
    (action_features : Fin M → Fin 54 → ℝ) : Fin M → ℝ :=
  fun i => m.action_scorer.forward (m.state_encoder.forward states)
    (m.action_encoder.forward (action_features i))

/-- Forward pass `PolicyValueNetwork.forward` for a single example of a batch: per-action
scores with masked positions overwritten by `-inf` (`⊥`), and the scalar value
from the separate value-path state encoder (model.py lines 105-143). -/
def PolicyValueNetwork.forward (m : PolicyValueNetwork) (states : Fin 501 → ℝ)
    (action_features : Fin M → Fin 54 → ℝ) (action_mask : Fin M → Bool) :
    (Fin M → WithBot ℝ) × ℝ :=
  (fun i => if action_mask i then ((rawScores m states action_features i : ℝ) : WithBot ℝ) else ⊥,
    m.value_head.forward (m.value_state_encoder.forward states))

/-- Exponential on scores-with-sentinel: `exp(-inf) = 0`. -/
def expW (s : WithBot ℝ) : ℝ := WithBot.recBotCoe 0 Real.exp s

/-- Softmax `F.softmax` along the action axis on scores that may contain the `-inf`
sentinel.  When at least one entry is finite this equals
`exp sᵢ / Σⱼ exp sⱼ` with `exp(-inf) = 0`; when every entry is `-inf` the
float computation divides zero mass by zero and every output entry is `NaN`,
modelled here by `none`. -/
def softmaxW (s : Fin M → WithBot ℝ) : Fin M → Option ℝ :=
  fun i => if (∑ j, expW (s j)) = 0 then none else some (expW (s i) / ∑ j, expW (s j))

/-- Method `get_policy_and_value` (model.py lines 145-149):
softmax of the masked scores, with the value passed through unchanged. -/
def PolicyValueNetwork.get_policy_and_value (m : PolicyValueNetwork)
    (states : Fin 501 → ℝ) (action_features : Fin M → Fin 54 → ℝ)
    (action_mask : Fin M → Bool) : (Fin M → Option ℝ) × ℝ :=
  (softmaxW (m.forward states action_features action_mask).1,
    (m.forward states action_features action_mask).2)

end

/-- Kinds of operation a manifest entry can carry (the `op` field of the
records built by `_build_graph_manifest`). -/
inductive OpKind where
  | linear
  | layernorm
  | relu
  | tanh
  deriving DecidableEq, BEq, Repr

/-- The module classes `isinstance` distinguishes while walking
`named_modules()`: `nn.Linear` or `nn.LayerNorm`, with the module's
registered name. -/
inductive ModuleType where
  | linear (name : String)
  | layernorm (name : String)
  deriving DecidableEq, Repr

/-- Non-root entries of `StateEncoder.named_modules()` in registration order. -/
def StateEncoder.named_modules : List ModuleType :=
  [.linear "fc1", .layernorm "ln1", .linear "fc2", .layernorm "ln2"]

/-- Non-root entries of `ActionEncoder.named_modules()` in registration order. -/
def ActionEncoder.named_modules : List ModuleType :=
  [.linear "fc1", .layernorm "ln1", .linear "fc2"]

/-- Non-root entries of `ActionScorer.named_modules()` in registration order. -/
def ActionScorer.named_modules : List ModuleType :=
  [.linear "fc1", .layernorm "ln1", .linear "fc2"]

/-- Non-root entries of `ValueHead.named_modules()` in registration order. -/
def ValueHead.named_modules : List ModuleType :=
  [.linear "fc1", .linear "fc2"]

/-- One iteration of the per-component loops of `_build_graph_manifest`
(model.py lines 170-208): a linear module emits one `linear` op keyed
`<component>_<name>`; a layernorm module emits a `layernorm` op followed
immediately by a `relu` op. -/
def encoderGraphOps (pfx : String) : List ModuleType → List (OpKind × Option String)
  | [] => []
  | .linear name :: rest =>
      (.linear, some (pfx ++ "_" ++ name)) :: encoderGraphOps pfx rest
  | .layernorm name :: rest =>
      (.layernorm, some (pfx ++ "_" ++ name)) :: (.relu, none) :: encoderGraphOps pfx rest

/-- The value-head loop of `_build_graph_manifest` (model.py lines 210-219):
linear and layernorm ops only, with no nonlinearity emitted yet. -/
def valueHeadGraphOps (pfx : String) : List ModuleType → List (OpKind × Option String)
  | [] => []
  | .linear name :: rest =>
      (.linear, some (pfx ++ "_" ++ name)) :: valueHeadGraphOps pfx rest
  | .layernorm name :: rest =>
      (.layernorm, some (pfx ++ "_" ++ name)) :: valueHeadGraphOps pfx rest

/-- Python `list.insert(n, a)` (clamping the index into range). -/
def pyInsert {α : Type} (l : List α) (n : ℕ) (a : α) : List α :=
  l.take n ++ a :: l.drop n

/-- Python `[i for i, op in enumerate(vh) if op['op'] == 'linear']`. -/
def linearIndices (l : List (OpKind × Option String)) : List ℕ :=
  (List.range l.length).filter fun i => (l[i]?).any fun op => op.1 == OpKind.linear

/-- The value-head fix-up of `_build_graph_manifest` (model.py lines 221-228):
insert a `relu` op after every linear op except the last (the second
recomputation of `linear_indices` in the Python is dead code), then append a
trailing `tanh` op. -/
def valueHeadFix (vh : List (OpKind × Option String)) : List (OpKind × Option String) :=
  let idxs := (linearIndices vh).dropLast
  let vh2 := idxs.foldl (fun acc idx => pyInsert acc (idx + 1) (OpKind.relu, none)) vh
  vh2 ++ [(OpKind.tanh, none)]

/-- The `graph` dictionary returned by `_build_graph_manifest`: one ordered
operation list per sub-network. -/
structure GraphManifest where
  state_encoder : List (OpKind × Option String)
  value_state_encoder : List (OpKind × Option String)
  action_encoder : List (OpKind × Option String)
  action_scorer : List (OpKind × Option String)
  value_head : List (OpKind × Option String)
  deriving DecidableEq, Repr

/-- Function `_build_graph_manifest` (model.py lines 155-230).  The manifest
depends only on the model's structure, which is fixed, so it takes no
argument here. -/
def build_graph_manifest : GraphManifest where
  state_encoder := encoderGraphOps "state_encoder" StateEncoder.named_modules
  value_state_encoder := encoderGraphOps "value_state_encoder" StateEncoder.named_modules
  action_encoder := encoderGraphOps "action_encoder" ActionEncoder.named_modules
  action_scorer := encoderGraphOps "action_scorer" ActionScorer.named_modules
  value_head := valueHeadFix (valueHeadGraphOps "value_head" ValueHead.named_modules)

/-- Projection of a manifest operation list to its operation kinds. -/
def kindsOf (l : List (OpKind × Option String)) : List OpKind := l.map Prod.fst

noncomputable section

/-- One manifest operation together with the parameters the executor fetches
for its key from the weight archive.  An affine op carries the exported
`kernel` (stored transposed, input-major) and `bias`; a normalization op
carries `gamma` and `beta`. -/
inductive GOp : ℕ → ℕ → Type where
  | linear (key : String) (kernel : Fin ni → Fin no → ℝ) (bias : Fin no → ℝ) : GOp ni no
  | layernorm (key : String) (gamma beta : Fin n → ℝ) : GOp n n
  | relu : GOp n n
  | tanh : GOp n n

/-- An ordered, dimension-compatible sequence of manifest operations. -/
inductive GOps : ℕ → ℕ → Type where
  | nil : GOps n n
  | cons : GOp ni nm → GOps nm no → GOps ni no

/-- Generic executor step: a `linear` op computes `output = input · kernel + bias`
in the receiving runtime's convention; a `layernorm` op applies inference-time
layer normalization with the keyed `gamma`/`beta`; `relu` and `tanh` apply the
fixed nonlinearities. -/
def runGOp : GOp ni no → (Fin ni → ℝ) → Fin no → ℝ
  | .linear _ kernel bias => fun x j => (∑ k, x k * kernel k j) + bias j
  | .layernorm _ g b => layerNormF ⟨g, b⟩
  | .relu => reluF
  | .tanh => fun x j => Real.tanh (x j)

/-- Generic executor: replay the operations in their listed order. -/
def runGOps : GOps ni no → (Fin ni → ℝ) → Fin no → ℝ
  | .nil => fun x => x
  | .cons op rest => fun x => runGOps rest (runGOp op x)

/-- Kind of a typed manifest operation. -/
def GOp.kind : GOp ni no → OpKind
  | .linear _ _ _ => .linear
  | .layernorm _ _ _ => .layernorm
  | .relu => .relu
  | .tanh => .tanh

/-- Key carried by a typed manifest operation, if any. -/
def GOp.keyOf : GOp ni no → Option String
  | .linear key _ _ => some key
  | .layernorm key _ _ => some key
  | .relu => none
  | .tanh => none

/-- Untyped view of a typed operation sequence, for comparison with the
operation lists `_build_graph_manifest` emits. -/
def GOps.opsList : GOps ni no → List (OpKind × Option String)
  | .nil => []
  | .cons op rest => (op.kind, op.keyOf) :: rest.opsList

/-- Typed manifest of a `StateEncoder` under key prefix `pfx`, with the
parameters `export_weights` stores for each key (the linear kernels
transposed). -/
def stateEncoderGOps (p : StateEncoder) (pfx : String) : GOps 501 256 :=
  .cons (.linear (pfx ++ "_fc1") (fun k j => p.fc1.weight j k) p.fc1.bias)
  (.cons (.layernorm (pfx ++ "_ln1") p.ln1.gamma p.ln1.beta)
  (.cons .relu
  (.cons (.linear (pfx ++ "_fc2") (fun k j => p.fc2.weight j k) p.fc2.bias)
  (.cons (.layernorm (pfx ++ "_ln2") p.ln2.gamma p.ln2.beta)
  (.cons .relu .nil)))))

/-- Typed manifest of the `ActionEncoder`. -/
def actionEncoderGOps (p : ActionEncoder) : GOps 54 64 :=
  .cons (.linear "action_encoder_fc1" (fun k j => p.fc1.weight j k) p.fc1.bias)
  (.cons (.layernorm "action_encoder_ln1" p.ln1.gamma p.ln1.beta)
  (.cons .relu
  (.cons (.linear "action_encoder_fc2" (fun k j => p.fc2.weight j k) p.fc2.bias) .nil)))

/-- Typed manifest of the `ActionScorer`. -/
def actionScorerGOps (p : ActionScorer) : GOps 320 1 :=
  .cons (.linear "action_scorer_fc1" (fun k j => p.fc1.weight j k) p.fc1.bias)
  (.cons (.layernorm "action_scorer_ln1" p.ln1.gamma p.ln1.beta)
  (.cons .relu
  (.cons (.linear "action_scorer_fc2" (fun k j => p.fc2.weight j k) p.fc2.bias) .nil)))

/-- Typed manifest of the `ValueHead` (after the fix-up: relu between the two
linears, trailing tanh). -/
def valueHeadGOps (p : ValueHead) : GOps 256 1 :=
  .cons (.linear "value_head_fc1" (fun k j => p.fc1.weight j k) p.fc1.bias)
  (.cons .relu
  (.cons (.linear "value_head_fc2" (fun k j => p.fc2.weight j k) p.fc2.bias)
  (.cons .tanh .nil)))

end

/-- Check that a relu op immediately follows every layernorm op of a kind
sequence. -/
def reluAfterEveryNorm (ks : List OpKind) : Bool :=
  (List.range ks.length).all fun i =>
    !(ks[i]? == some OpKind.layernorm) || (ks[i + 1]? == some OpKind.relu)

/-- Check that a kind sequence ends with a tanh op. -/
def endsWithTanh (ks : List OpKind) : Bool := ks.getLast? == some OpKind.tanh

/-- Check that a kind sequence contains no normalization op. -/
def noNorm (ks : List OpKind) : Bool := !(ks.contains OpKind.layernorm)

/-- Check that positions `i+1`, `i+2` of a kind sequence hold a layernorm op
and a relu op. -/
def followedByNormRelu (ks : List OpKind) (i : ℕ) : Bool :=
  (ks[i + 1]? == some OpKind.layernorm) && (ks[i + 2]? == some OpKind.relu)

/-- Positions of the linear ops in a kind sequence. -/
def linearKindIndices (ks : List OpKind) : List ℕ :=
  (List.range ks.length).filter fun i => ks[i]? == some OpKind.linear

/-- The layer pattern asserted by the spec for an encoder: every affine layer
except the last is followed by a normalization step and a rectifying
nonlinearity, and the last affine layer is not followed by a normalization
step. -/
def encoderLayerPattern (ks : List OpKind) : Bool :=
  ((linearKindIndices ks).dropLast.all fun i => followedByNormRelu ks i) &&
  ((linearKindIndices ks).getLast?.all fun i => !(ks[i + 1]? == some OpKind.layernorm))

noncomputable section

/-- Value stored in the archive for one `nn.Linear`: the `kernel` is the
weight matrix transposed (input-major, so that `output = input · kernel +
bias`), the `bias` as is (model.py lines 250-254). -/
structure LinearEntry (ni no : ℕ) where
  kernel : Fin ni → Fin no → ℝ
  bias : Fin no → ℝ

/-- Value stored in the archive for one `nn.LayerNorm`: its `weight` as
`gamma`, its `bias` as `beta` (model.py lines 256-260). -/
structure LayerNormEntry (n : ℕ) where
  gamma : Fin n → ℝ
  beta : Fin n → ℝ

/-- The JSON weight archive: the `_meta` fields and one optional entry per
parameter key (a JSON object either holds a key or does not; `load_weights`
raises `KeyError` on an absent key it reads). -/
structure WeightArchive where
  version : ℤ
  state_size : ℕ
  action_size : ℕ
  graph : GraphManifest
  state_encoder_fc1 : Option (LinearEntry 501 512)
  state_encoder_ln1 : Option (LayerNormEntry 512)
  state_encoder_fc2 : Option (LinearEntry 512 256)
  state_encoder_ln2 : Option (LayerNormEntry 256)
  value_state_encoder_fc1 : Option (LinearEntry 501 512)
  value_state_encoder_ln1 : Option (LayerNormEntry 512)
  value_state_encoder_fc2 : Option (LinearEntry 512 256)
  value_state_encoder_ln2 : Option (LayerNormEntry 256)
  action_encoder_fc1 : Option (LinearEntry 54 128)
  action_encoder_ln1 : Option (LayerNormEntry 128)
  action_encoder_fc2 : Option (LinearEntry 128 64)
  action_scorer_fc1 : Option (LinearEntry 320 128)
  action_scorer_ln1 : Option (LayerNormEntry 128)
  action_scorer_fc2 : Option (LinearEntry 128 1)
  value_head_fc1 : Option (LinearEntry 256 128)
  value_head_fc2 : Option (LinearEntry 128 1)

/-- Helper `export_linear` of `export_weights`: store the kernel transposed. -/
def export_linear (p : LinearParams ni no) : LinearEntry ni no :=
  ⟨fun k j => p.weight j k, p.bias⟩

/-- Helper `export_layernorm` of `export_weights`. -/
def export_layernorm (p : LayerNormParams n) : LayerNormEntry n :=
  ⟨p.gamma, p.beta⟩

/-- Function `export_weights` (model.py lines 233-277): metadata with
`version = 2` and the graph manifest, plus every linear and layernorm
parameter of the five components under its manifest key. -/
def export_weights (model : PolicyValueNetwork) : WeightArchive where
  version := 2
  state_size := STATE_SIZE
  action_size := ACTION_SIZE
  graph := build_graph_manifest
  state_encoder_fc1 := some (export_linear model.state_encoder.fc1)
  state_encoder_ln1 := some (export_layernorm model.state_encoder.ln1)
  state_encoder_fc2 := some (export_linear model.state_encoder.fc2)
  state_encoder_ln2 := some (export_layernorm model.state_encoder.ln2)
  value_state_encoder_fc1 := some (export_linear model.value_state_encoder.fc1)
  value_state_encoder_ln1 := some (export_layernorm model.value_state_encoder.ln1)
  value_state_encoder_fc2 := some (export_linear model.value_state_encoder.fc2)
  value_state_encoder_ln2 := some (export_layernorm model.value_state_encoder.ln2)
  action_encoder_fc1 := some (export_linear model.action_encoder.fc1)
  action_encoder_ln1 := some (export_layernorm model.action_encoder.ln1)
  action_encoder_fc2 := some (export_linear model.action_encoder.fc2)
  action_scorer_fc1 := some (export_linear model.action_scorer.fc1)
  action_scorer_ln1 := some (export_layernorm model.action_scorer.ln1)
  action_scorer_fc2 := some (export_linear model.action_scorer.fc2)
  value_head_fc1 := some (export_linear model.value_head.fc1)
  value_head_fc2 := some (export_linear model.value_head.fc2)

/-- Helper `load_linear` of `load_weights`: transpose the stored kernel back. -/
def load_linear (e : LinearEntry ni no) : LinearParams ni no :=
  ⟨fun j k => e.kernel k j, e.bias⟩

/-- Helper `load_layernorm` of `load_weights`. -/
def load_layernorm (e : LayerNormEntry n) : LayerNormParams n :=
  ⟨e.gamma, e.beta⟩

/-- Continuation of `load_weights` after the two state-encoder blocks: the
`action_encoder`, `action_scorer` and `value_head` keys (model.py lines
315-324), assembling the fully loaded model and the fallback flag. -/
def load_weights_rest (w : WeightArchive) (se vse : StateEncoder) (fellBack : Bool) :
    Except String (PolicyValueNetwork × Bool) :=
  match w.action_encoder_fc1 with
  | none => .error "KeyError: action_encoder_fc1"
  | some ae_fc1 =>
  match w.action_encoder_ln1 with
  | none => .error "KeyError: action_encoder_ln1"
  | some ae_ln1 =>
  match w.action_encoder_fc2 with
  | none => .error "KeyError: action_encoder_fc2"
  | some ae_fc2 =>
  match w.action_scorer_fc1 with
  | none => .error "KeyError: action_scorer_fc1"
  | some sc_fc1 =>
  match w.action_scorer_ln1 with
  | none => .error "KeyError: action_scorer_ln1"
  | some sc_ln1 =>
  match w.action_scorer_fc2 with
  | none => .error "KeyError: action_scorer_fc2"
  | some sc_fc2 =>
  match w.value_head_fc1 with
  | none => .error "KeyError: value_head_fc1"
  | some vh_fc1 =>
  match w.value_head_fc2 with
  | none => .error "KeyError: value_head_fc2"
  | some vh_fc2 =>
  .ok ({ state_encoder := se
         value_state_encoder := vse
         action_encoder :=
           ⟨load_linear ae_fc1, load_layernorm ae_ln1, load_linear ae_fc2⟩
         action_scorer :=
           ⟨load_linear sc_fc1, load_layernorm sc_ln1, load_linear sc_fc2⟩
         value_head := ⟨load_linear vh_fc1, load_linear vh_fc2⟩ }, fellBack)

/-- Function `load_weights` (model.py lines 280-326), reading keys in the
code's order.  An absent mandatory key raises `KeyError` (modelled as
`Except.error`).  The value_state_encoder block runs only when the key
`value_state_encoder_fc1` is present; otherwise the freshly-initialized
`value_state_encoder` of the model being loaded into is kept and the returned
flag is true, modelling the printed fallback note.  The `_meta` fields,
including `version`, are never read. -/
def load_weights (model : PolicyValueNetwork) (w : WeightArchive) :
    Except String (PolicyValueNetwork × Bool) :=
  match w.state_encoder_fc1 with
  | none => .error "KeyError: state_encoder_fc1"
  | some se_fc1 =>
  match w.state_encoder_ln1 with
  | none => .error "KeyError: state_encoder_ln1"
  | some se_ln1 =>
  match w.state_encoder_fc2 with
  | none => .error "KeyError: state_encoder_fc2"
  | some se_fc2 =>
  match w.state_encoder_ln2 with
  | none => .error "KeyError: state_encoder_ln2"
  | some se_ln2 =>
  match w.value_state_encoder_fc1 with
  | some v_fc1 =>
    (match w.value_state_encoder_ln1 with
    | none => .error "KeyError: value_state_encoder_ln1"
    | some v_ln1 =>
    match w.value_state_encoder_fc2 with
    | none => .error "KeyError: value_state_encoder_fc2"
    | some v_fc2 =>
    match w.value_state_encoder_ln2 with
    | none => .error "KeyError: value_state_encoder_ln2"
    | some v_ln2 =>
    load_weights_rest w
      ⟨load_linear se_fc1, load_layernorm se_ln1, load_linear se_fc2, load_layernorm se_ln2⟩
      ⟨load_linear v_fc1, load_layernorm v_ln1, load_linear v_fc2, load_layernorm v_ln2⟩
      false)
  | none =>
    load_weights_rest w
      ⟨load_linear se_fc1, load_layernorm se_ln1, load_linear se_fc2, load_layernorm se_ln2⟩
      model.value_state_encoder
      true

end


noncomputable section

/-- Mandatory-key completeness: every parameter key `load_weights` reads
unconditionally is present. -/
def mandatoryComplete (w : WeightArchive) : Bool :=
  w.state_encoder_fc1.isSome && w.state_encoder_ln1.isSome &&
  w.state_encoder_fc2.isSome && w.state_encoder_ln2.isSome &&
  w.action_encoder_fc1.isSome && w.action_encoder_ln1.isSome &&
  w.action_encoder_fc2.isSome &&
  w.action_scorer_fc1.isSome && w.action_scorer_ln1.isSome &&
  w.action_scorer_fc2.isSome &&
  w.value_head_fc1.isSome && w.value_head_fc2.isSome

/-- Absence of the whole optional sub-network: no value_state_encoder key is
present. -/
def vseAbsent (w : WeightArchive) : Bool :=
  w.value_state_encoder_fc1.isNone && w.value_state_encoder_ln1.isNone &&
  w.value_state_encoder_fc2.isNone && w.value_state_encoder_ln2.isNone

/-- A concrete all-zero state encoder, used to instantiate theorems. -/
def zeroStateEncoder : StateEncoder :=
  ⟨⟨fun _ _ => 0, fun _ => 0⟩, ⟨fun _ => 0, fun _ => 0⟩,
    ⟨fun _ _ => 0, fun _ => 0⟩, ⟨fun _ => 0, fun _ => 0⟩⟩

/-- A concrete all-zero model, used to instantiate theorems. -/
def zeroModel : PolicyValueNetwork :=
  ⟨zeroStateEncoder, zeroStateEncoder,
    ⟨⟨fun _ _ => 0, fun _ => 0⟩, ⟨fun _ => 0, fun _ => 0⟩, ⟨fun _ _ => 0, fun _ => 0⟩⟩,
    ⟨⟨fun _ _ => 0, fun _ => 0⟩, ⟨fun _ => 0, fun _ => 0⟩, ⟨fun _ _ => 0, fun _ => 0⟩⟩,
    ⟨⟨fun _ _ => 0, fun _ => 0⟩, ⟨fun _ _ => 0, fun _ => 0⟩⟩⟩

/-- A concrete archive with all mandatory keys but no value_state_encoder
keys (the backward-compatibility case). -/
def vseStrippedArchive : WeightArchive :=
  { export_weights zeroModel with
      value_state_encoder_fc1 := none
      value_state_encoder_ln1 := none
      value_state_encoder_fc2 := none
      value_state_encoder_ln2 := none }

/-- A concrete archive missing one mandatory key (action_scorer_ln1). -/
def missingKeyArchive : WeightArchive :=
  { export_weights zeroModel with action_scorer_ln1 := none }

end

/-- Real.tanh is strictly below 1. -/
theorem tanh_lt_one' (x : ℝ) : Real.tanh x < 1 := by
  rw [Real.tanh_eq_sinh_div_cosh]
  exact (div_lt_one (Real.cosh_pos x)).2 (Real.sinh_lt_cosh x)

/-- Real.tanh is strictly above -1. -/
theorem neg_one_lt_tanh' (x : ℝ) : -1 < Real.tanh x := by
  have h := tanh_lt_one' (-x)
  rw [Real.tanh_neg] at h
  linarith

/-- C8: for every finite state input vector, the scalar value returned by the
forward pass (the value head's output, a tanh) lies within [-1, 1]. -/
theorem value_within_unit_interval (m : PolicyValueNetwork) (states : Fin 501 → ℝ)
    {M : ℕ} (action_features : Fin M → Fin 54 → ℝ) (action_mask : Fin M → Bool) :
    -1 ≤ (m.forward states action_features action_mask).2 ∧
      (m.forward states action_features action_mask).2 ≤ 1 := by
  refine ⟨le_of_lt ?_, le_of_lt ?_⟩
  · exact neg_one_lt_tanh' _
  · exact tanh_lt_one' _

/-- Value of exp at the bot sentinel. -/
theorem expW_bot : expW ⊥ = 0 := rfl

/-- Value of exp at a finite score. -/
theorem expW_coe (x : ℝ) : expW (x : WithBot ℝ) = Real.exp x := rfl

/-- Nonnegativity of the sentinel-aware exponential. -/
theorem expW_nonneg (s : WithBot ℝ) : 0 ≤ expW s := by
  induction s using WithBot.recBotCoe with
  | bot => exact le_refl 0
  | coe x => exact le_of_lt (Real.exp_pos x)

/-- C1: for every state vector and action batch whose validity mask has at
least one true entry, the policy returned by get_policy_and_value is a
probability distribution: every entry is a real number (no NaN), entries are
nonnegative, they sum to 1, and every masked position holds exactly 0. -/
theorem policy_is_distribution (m : PolicyValueNetwork) (states : Fin 501 → ℝ)
    {M : ℕ} (action_features : Fin M → Fin 54 → ℝ) (action_mask : Fin M → Bool)
    (h : ∃ i, action_mask i = true) :
    ∃ p : Fin M → ℝ,
      (∀ i, (m.get_policy_and_value states action_features action_mask).1 i = some (p i)) ∧
      (∀ i, 0 ≤ p i) ∧ (∑ i, p i) = 1 ∧
      (∀ i, action_mask i = false → p i = 0) := by
  obtain ⟨i0, hi0⟩ := h
  set sc := (m.forward states action_features action_mask).1 with hsc
  have hbot : ∀ i, action_mask i = false → sc i = ⊥ := by
    intro i hi
    simp [hsc, PolicyValueNetwork.forward, hi]
  have hcoe : ∀ i, action_mask i = true →
      sc i = ((rawScores m states action_features i : ℝ) : WithBot ℝ) := by
    intro i hi
    simp [hsc, PolicyValueNetwork.forward, hi]
  have hd : 0 < ∑ j, expW (sc j) := by
    refine Finset.sum_pos' (fun j _ => expW_nonneg (sc j)) ⟨i0, Finset.mem_univ i0, ?_⟩
    rw [hcoe i0 hi0, expW_coe]
    exact Real.exp_pos _
  have hdne : (∑ j, expW (sc j)) ≠ 0 := ne_of_gt hd
  refine ⟨fun i => expW (sc i) / ∑ j, expW (sc j), ?_, ?_, ?_, ?_⟩
  · intro i
    simp only [PolicyValueNetwork.get_policy_and_value, softmaxW, ← hsc]
    rw [if_neg hdne]
  · intro i
    exact div_nonneg (expW_nonneg _) (le_of_lt hd)
  · rw [← Finset.sum_div, div_self hdne]
  · intro i hi
    show expW (sc i) / ∑ j, expW (sc j) = 0
    rw [hbot i hi, expW_bot, zero_div]

/-- C9: for every action batch whose validity mask has exactly one true entry,
get_policy_and_value returns policy exactly 1 at that position and exactly 0 at
every other position, independently of the raw score there. -/
theorem single_valid_action_policy (m : PolicyValueNetwork) (states : Fin 501 → ℝ)
    {M : ℕ} (action_features : Fin M → Fin 54 → ℝ) (action_mask : Fin M → Bool)
    (i0 : Fin M) (h1 : action_mask i0 = true)
    (h2 : ∀ j, j ≠ i0 → action_mask j = false) :
    (m.get_policy_and_value states action_features action_mask).1 i0 = some 1 ∧
    ∀ j, j ≠ i0 →
      (m.get_policy_and_value states action_features action_mask).1 j = some 0 := by
  set sc := (m.forward states action_features action_mask).1 with hsc
  have hbot : ∀ j, j ≠ i0 → sc j = ⊥ := by
    intro j hj
    simp [hsc, PolicyValueNetwork.forward, h2 j hj]
  have hci0 : sc i0 = ((rawScores m states action_features i0 : ℝ) : WithBot ℝ) := by
    simp [hsc, PolicyValueNetwork.forward, h1]
  have hsum : (∑ j, expW (sc j)) = expW (sc i0) := by
    refine Finset.sum_eq_single i0 ?_ ?_
    · intro b _ hb
      rw [hbot b hb, expW_bot]
    · intro hmem
      exact absurd (Finset.mem_univ i0) hmem
  have hpos : 0 < expW (sc i0) := by
    rw [hci0, expW_coe]
    exact Real.exp_pos _
  have hdne : (∑ j, expW (sc j)) ≠ 0 := by
    rw [hsum]
    exact ne_of_gt hpos
  constructor
  · simp only [PolicyValueNetwork.get_policy_and_value, softmaxW, ← hsc]
    rw [if_neg hdne, hsum, div_self (ne_of_gt hpos)]
  · intro j hj
    simp only [PolicyValueNetwork.get_policy_and_value, softmaxW, ← hsc]
    rw [if_neg hdne, hbot j hj, expW_bot, zero_div]

/-- C10: when the validity mask is all false, the forward pass still returns a
result (it is a total function): every masked score is the bot sentinel (-inf)
and every policy entry of get_policy_and_value is none, the model of the NaNs
the float softmax produces when all mass is zero — so the at-least-one-valid
precondition is necessary for the policy-normalization guarantee. -/
theorem all_false_mask_policy_nan (m : PolicyValueNetwork) (states : Fin 501 → ℝ)
    {M : ℕ} (action_features : Fin M → Fin 54 → ℝ) (action_mask : Fin M → Bool)
    (h : ∀ i, action_mask i = false) :
    (∀ i, (m.forward states action_features action_mask).1 i = ⊥) ∧
    (∀ i, (m.get_policy_and_value states action_features action_mask).1 i = none) := by
  have hbot : ∀ i, (m.forward states action_features action_mask).1 i = ⊥ := by
    intro i
    simp [PolicyValueNetwork.forward, h i]
  refine ⟨hbot, ?_⟩
  intro i
  have hd : (∑ j, expW ((m.forward states action_features action_mask).1 j)) = 0 := by
    refine Finset.sum_eq_zero ?_
    intro j _
    rw [hbot j, expW_bot]
  simp only [PolicyValueNetwork.get_policy_and_value, softmaxW]
  rw [if_pos hd]

/-- C7: applying a permutation jointly to the action features and the mask
permutes the masked scores and the policy identically and leaves the value
unchanged. -/
theorem permutation_equivariance (m : PolicyValueNetwork) (states : Fin 501 → ℝ)
    {M : ℕ} (action_features : Fin M → Fin 54 → ℝ) (action_mask : Fin M → Bool)
    (σ : Equiv.Perm (Fin M)) :
    ((m.forward states (fun i => action_features (σ i)) (fun i => action_mask (σ i))).1 =
      fun i => (m.forward states action_features action_mask).1 (σ i)) ∧
    ((m.forward states (fun i => action_features (σ i)) (fun i => action_mask (σ i))).2 =
      (m.forward states action_features action_mask).2) ∧
    ((m.get_policy_and_value states (fun i => action_features (σ i))
        (fun i => action_mask (σ i))).1 =
      fun i => (m.get_policy_and_value states action_features action_mask).1 (σ i)) ∧
    ((m.get_policy_and_value states (fun i => action_features (σ i))
        (fun i => action_mask (σ i))).2 =
      (m.get_policy_and_value states action_features action_mask).2) := by
  have hscores :
      (m.forward states (fun i => action_features (σ i)) (fun i => action_mask (σ i))).1 =
        fun i => (m.forward states action_features action_mask).1 (σ i) := rfl
  refine ⟨hscores, rfl, ?_, rfl⟩
  funext i
  simp only [PolicyValueNetwork.get_policy_and_value, softmaxW, hscores]
  rw [Equiv.sum_comp σ (fun j => expW ((m.forward states action_features action_mask).1 j))]

theorem manifest_kind_lists :
    kindsOf build_graph_manifest.state_encoder =
      [.linear, .layernorm, .relu, .linear, .layernorm, .relu] ∧
    kindsOf build_graph_manifest.value_state_encoder =
      [.linear, .layernorm, .relu, .linear, .layernorm, .relu] ∧
    kindsOf build_graph_manifest.action_encoder =
      [.linear, .layernorm, .relu, .linear] ∧
    kindsOf build_graph_manifest.action_scorer =
      [.linear, .layernorm, .relu, .linear] ∧
    kindsOf build_graph_manifest.value_head =
      [.linear, .relu, .linear, .tanh] := by decide

/-- Replaying an exported (transposed) affine op equals the training-runtime
linear layer. -/
theorem runGOp_linear_transposed (key : String) (W : Fin no → Fin ni → ℝ)
    (b : Fin no → ℝ) (x : Fin ni → ℝ) :
    runGOp (.linear key (fun k j => W j k) b) x = linearF ⟨W, b⟩ x := by
  funext j
  simp only [runGOp, linearF]
  congr 1
  exact Finset.sum_congr rfl fun k _ => mul_comm _ _

/-- Interpreting the state-encoder manifest equals the encoder's forward pass. -/
theorem run_stateEncoderGOps (p : StateEncoder) (pfx : String) (x : Fin 501 → ℝ) :
    runGOps (stateEncoderGOps p pfx) x = p.forward x := by
  show reluF (layerNormF ⟨p.ln2.gamma, p.ln2.beta⟩
      (runGOp (.linear (pfx ++ "_fc2") (fun k j => p.fc2.weight j k) p.fc2.bias)
        (reluF (layerNormF ⟨p.ln1.gamma, p.ln1.beta⟩
          (runGOp (.linear (pfx ++ "_fc1") (fun k j => p.fc1.weight j k) p.fc1.bias) x))))) =
    p.forward x
  rw [runGOp_linear_transposed, runGOp_linear_transposed]
  rfl

/-- Interpreting the action-encoder manifest equals the encoder's forward pass. -/
theorem run_actionEncoderGOps (p : ActionEncoder) (x : Fin 54 → ℝ) :
    runGOps (actionEncoderGOps p) x = p.forward x := by
  show runGOp (.linear "action_encoder_fc2" (fun k j => p.fc2.weight j k) p.fc2.bias)
      (reluF (layerNormF ⟨p.ln1.gamma, p.ln1.beta⟩
        (runGOp (.linear "action_encoder_fc1" (fun k j => p.fc1.weight j k) p.fc1.bias) x))) =
    p.forward x
  rw [runGOp_linear_transposed, runGOp_linear_transposed]
  rfl

/-- Interpreting the action-scorer manifest on the concatenated embeddings
equals the scorer's forward pass. -/
theorem run_actionScorerGOps (p : ActionScorer) (s : Fin 256 → ℝ) (a : Fin 64 → ℝ) :
    runGOps (actionScorerGOps p) (catF s a) 0 = p.forward s a := by
  show runGOp (.linear "action_scorer_fc2" (fun k j => p.fc2.weight j k) p.fc2.bias)
      (reluF (layerNormF ⟨p.ln1.gamma, p.ln1.beta⟩
        (runGOp (.linear "action_scorer_fc1" (fun k j => p.fc1.weight j k) p.fc1.bias)
          (catF s a)))) 0 = p.forward s a
  rw [runGOp_linear_transposed, runGOp_linear_transposed]
  rfl

/-- Interpreting the value-head manifest equals the head's forward pass. -/
theorem run_valueHeadGOps (p : ValueHead) (x : Fin 256 → ℝ) :
    runGOps (valueHeadGOps p) x 0 = p.forward x := by
  show (fun y j => Real.tanh (y j))
      (runGOp (.linear "value_head_fc2" (fun k j => p.fc2.weight j k) p.fc2.bias)
        (reluF (runGOp (.linear "value_head_fc1" (fun k j => p.fc1.weight j k) p.fc1.bias) x))) 0 =
    p.forward x
  rw [runGOp_linear_transposed, runGOp_linear_transposed]
  rfl

/-- C3: for each of the five sub-networks, the generic interpreter that
replays the manifest built by the embedding of `_build_graph_manifest` in its
listed order computes exactly that sub-network's forward method; the typed
operation sequences replayed are, kind for kind and key for key, the lists the
manifest builder emits; a relu op follows every layernorm op in all five
lists; and the value_head list ends with a tanh op and contains no
normalization op. -/
theorem manifest_interpreter_equivalence (m : PolicyValueNetwork) :
    ((stateEncoderGOps m.state_encoder "state_encoder").opsList =
        build_graph_manifest.state_encoder ∧
      (stateEncoderGOps m.value_state_encoder "value_state_encoder").opsList =
        build_graph_manifest.value_state_encoder ∧
      (actionEncoderGOps m.action_encoder).opsList =
        build_graph_manifest.action_encoder ∧
      (actionScorerGOps m.action_scorer).opsList =
        build_graph_manifest.action_scorer ∧
      (valueHeadGOps m.value_head).opsList = build_graph_manifest.value_head) ∧
    ((∀ x, runGOps (stateEncoderGOps m.state_encoder "state_encoder") x =
        m.state_encoder.forward x) ∧
      (∀ x, runGOps (stateEncoderGOps m.value_state_encoder "value_state_encoder") x =
        m.value_state_encoder.forward x) ∧
      (∀ x, runGOps (actionEncoderGOps m.action_encoder) x =
        m.action_encoder.forward x) ∧
      (∀ s a, runGOps (actionScorerGOps m.action_scorer) (catF s a) 0 =
        m.action_scorer.forward s a) ∧
      (∀ x, runGOps (valueHeadGOps m.value_head) x 0 = m.value_head.forward x)) ∧
    (reluAfterEveryNorm (kindsOf build_graph_manifest.state_encoder) = true ∧
      reluAfterEveryNorm (kindsOf build_graph_manifest.value_state_encoder) = true ∧
      reluAfterEveryNorm (kindsOf build_graph_manifest.action_encoder) = true ∧
      reluAfterEveryNorm (kindsOf build_graph_manifest.action_scorer) = true ∧
      reluAfterEveryNorm (kindsOf build_graph_manifest.value_head) = true ∧
      endsWithTanh (kindsOf build_graph_manifest.value_head) = true ∧
      noNorm (kindsOf build_graph_manifest.value_head) = true) := by
  refine ⟨⟨rfl, rfl, rfl, rfl, rfl⟩, ?_, by decide⟩
  exact ⟨fun x => run_stateEncoderGOps m.state_encoder "state_encoder" x,
    fun x => run_stateEncoderGOps m.value_state_encoder "value_state_encoder" x,
    fun x => run_actionEncoderGOps m.action_encoder x,
    fun s a => run_actionScorerGOps m.action_scorer s a,
    fun x => run_valueHeadGOps m.value_head x⟩

/-- C5 counterexample: the asserted layer pattern fails on the code.  In both
state encoders the last affine layer (fc2) is followed by a normalization step
(ln2): the pattern holds of the action encoder only. -/
theorem c5_layer_pattern_counterexample :
    ¬ (encoderLayerPattern (kindsOf build_graph_manifest.state_encoder) = true ∧
      encoderLayerPattern (kindsOf build_graph_manifest.value_state_encoder) = true ∧
      encoderLayerPattern (kindsOf build_graph_manifest.action_encoder) = true) := by
  decide

/-- C5 amended: in the action encoder, each affine layer except the last is
followed by a normalization step and a rectifying nonlinearity and the last
affine layer is not followed by a normalization step; in both state encoders,
every affine layer — including the last — is followed by a normalization step
and a rectifying nonlinearity. -/
theorem c5_amended_layer_pattern :
    encoderLayerPattern (kindsOf build_graph_manifest.action_encoder) = true ∧
    ((linearKindIndices (kindsOf build_graph_manifest.state_encoder)).all fun i =>
      followedByNormRelu (kindsOf build_graph_manifest.state_encoder) i) = true ∧
    ((linearKindIndices (kindsOf build_graph_manifest.value_state_encoder)).all fun i =>
      followedByNormRelu (kindsOf build_graph_manifest.value_state_encoder) i) = true := by
  decide

/-- C2: exporting a model and loading the archive into any freshly
constructed model reproduces the original parameters exactly — the kernel is
stored transposed so that output = input · kernel + bias, and the loader
transposes it back — with no fallback notice, and hence the loaded model's
policy and value agree with the original's on every input. -/
theorem export_load_roundtrip (model fresh : PolicyValueNetwork) :
    (∀ (ni no : ℕ) (p : LinearParams ni no) (x : Fin ni → ℝ) (j : Fin no),
      (∑ k, x k * (export_linear p).kernel k j) + (export_linear p).bias j =
        linearF p x j) ∧
    ∃ loaded : PolicyValueNetwork,
      load_weights fresh (export_weights model) = Except.ok (loaded, false) ∧
      loaded = model ∧
      (∀ (M : ℕ) (states : Fin 501 → ℝ) (action_features : Fin M → Fin 54 → ℝ)
        (action_mask : Fin M → Bool),
        loaded.get_policy_and_value states action_features action_mask =
          model.get_policy_and_value states action_features action_mask) := by
  refine ⟨?_, model, rfl, rfl, fun _ _ _ _ => rfl⟩
  intro ni no p x j
  simp only [export_linear, linearF]
  congr 1
  exact Finset.sum_congr rfl fun k _ => mul_comm _ _

/-- C4 divergence witness: load_weights never reads the version field, so an
archive whose version is arbitrary — in particular unrecognized — and whose
parameter keys are all present loads fully and successfully instead of
failing closed. -/
theorem load_ignores_version (model fresh : PolicyValueNetwork) (v : ℤ) :
    load_weights fresh { export_weights model with version := v } =
      Except.ok (model, false) := rfl

/-- Successful completion of the tail of the load implies every key it reads
is present. -/
theorem load_weights_rest_ok_keys (w : WeightArchive) (se vse : StateEncoder)
    (fb : Bool) (r : PolicyValueNetwork × Bool)
    (h : load_weights_rest w se vse fb = Except.ok r) :
    w.action_encoder_fc1.isSome = true ∧ w.action_encoder_ln1.isSome = true ∧
    w.action_encoder_fc2.isSome = true ∧ w.action_scorer_fc1.isSome = true ∧
    w.action_scorer_ln1.isSome = true ∧ w.action_scorer_fc2.isSome = true ∧
    w.value_head_fc1.isSome = true ∧ w.value_head_fc2.isSome = true := by
  rcases q1 : w.action_encoder_fc1 with _ | a1
  · simp [load_weights_rest, q1] at h
  rcases q2 : w.action_encoder_ln1 with _ | a2
  · simp [load_weights_rest, q1, q2] at h
  rcases q3 : w.action_encoder_fc2 with _ | a3
  · simp [load_weights_rest, q1, q2, q3] at h
  rcases q4 : w.action_scorer_fc1 with _ | a4
  · simp [load_weights_rest, q1, q2, q3, q4] at h
  rcases q5 : w.action_scorer_ln1 with _ | a5
  · simp [load_weights_rest, q1, q2, q3, q4, q5] at h
  rcases q6 : w.action_scorer_fc2 with _ | a6
  · simp [load_weights_rest, q1, q2, q3, q4, q5, q6] at h
  rcases q7 : w.value_head_fc1 with _ | a7
  · simp [load_weights_rest, q1, q2, q3, q4, q5, q6, q7] at h
  rcases q8 : w.value_head_fc2 with _ | a8
  · simp [load_weights_rest, q1, q2, q3, q4, q5, q6, q7, q8] at h
  simp [q1, q2, q3, q4, q5, q6, q7, q8]

/-- Successful completion of load_weights implies every mandatory key is
present. -/
theorem load_ok_mandatory (fresh : PolicyValueNetwork) (w : WeightArchive)
    (r : PolicyValueNetwork × Bool) (h : load_weights fresh w = Except.ok r) :
    mandatoryComplete w = true := by
  rcases q1 : w.state_encoder_fc1 with _ | a1
  · simp [load_weights, q1] at h
  rcases q2 : w.state_encoder_ln1 with _ | a2
  · simp [load_weights, q1, q2] at h
  rcases q3 : w.state_encoder_fc2 with _ | a3
  · simp [load_weights, q1, q2, q3] at h
  rcases q4 : w.state_encoder_ln2 with _ | a4
  · simp [load_weights, q1, q2, q3, q4] at h
  rcases q5 : w.value_state_encoder_fc1 with _ | b1
  · simp only [load_weights, q1, q2, q3, q4, q5] at h
    obtain ⟨k1, k2, k3, k4, k5, k6, k7, k8⟩ := load_weights_rest_ok_keys _ _ _ _ _ h
    simp [mandatoryComplete, q1, q2, q3, q4, k1, k2, k3, k4, k5, k6, k7, k8]
  rcases q6 : w.value_state_encoder_ln1 with _ | b2
  · simp [load_weights, q1, q2, q3, q4, q5, q6] at h
  rcases q7 : w.value_state_encoder_fc2 with _ | b3
  · simp [load_weights, q1, q2, q3, q4, q5, q6, q7] at h
  rcases q8 : w.value_state_encoder_ln2 with _ | b4
  · simp [load_weights, q1, q2, q3, q4, q5, q6, q7, q8] at h
  simp only [load_weights, q1, q2, q3, q4, q5, q6, q7, q8] at h
  obtain ⟨k1, k2, k3, k4, k5, k6, k7, k8⟩ := load_weights_rest_ok_keys _ _ _ _ _ h
  simp [mandatoryComplete, q1, q2, q3, q4, k1, k2, k3, k4, k5, k6, k7, k8]

/-- C6: loading an archive that has every mandatory key but no
value_state_encoder key succeeds, leaves the value_state_encoder at the
freshly-initialized values of the model being loaded into, and reports the
fallback (flag true); loading an archive that lacks any mandatory key fails. -/
theorem optional_vse_fallback_mandatory_fatal (fresh : PolicyValueNetwork)
    (w wbad : WeightArchive) (h1 : vseAbsent w = true)
    (h2 : mandatoryComplete w = true) (h3 : mandatoryComplete wbad = false) :
    (∃ loaded : PolicyValueNetwork,
      load_weights fresh w = Except.ok (loaded, true) ∧
      loaded.value_state_encoder = fresh.value_state_encoder) ∧
    (∃ e : String, load_weights fresh wbad = Except.error e) := by
  constructor
  · simp only [vseAbsent, Bool.and_eq_true, Option.isNone_iff_eq_none] at h1
    obtain ⟨⟨⟨n1, n2⟩, n3⟩, n4⟩ := h1
    simp only [mandatoryComplete, Bool.and_eq_true, Option.isSome_iff_exists] at h2
    obtain ⟨⟨⟨⟨⟨⟨⟨⟨⟨⟨⟨⟨a1, m1⟩, a2, m2⟩, a3, m3⟩, a4, m4⟩, a5, m5⟩, a6, m6⟩,
      a7, m7⟩, a8, m8⟩, a9, m9⟩, a10, m10⟩, a11, m11⟩, a12, m12⟩ := h2
    simp only [load_weights, load_weights_rest, m1, m2, m3, m4, n1, m5, m6, m7, m8,
      m9, m10, m11, m12]
    exact ⟨_, rfl, rfl⟩
  · cases hres : load_weights fresh wbad with
    | error e => exact ⟨e, rfl⟩
    | ok r => exact absurd (load_ok_mandatory fresh wbad r hres) (by simp [h3])

/-- C6 witness: the concrete archives vseStrippedArchive and
missingKeyArchive exhibit both halves of the statement. -/
theorem optional_vse_fallback_mandatory_fatal_witness :
    (∃ loaded : PolicyValueNetwork,
      load_weights zeroModel vseStrippedArchive = Except.ok (loaded, true) ∧
      loaded.value_state_encoder = zeroModel.value_state_encoder) ∧
    (∃ e : String, load_weights zeroModel missingKeyArchive = Except.error e) :=
  optional_vse_fallback_mandatory_fatal zeroModel vseStrippedArchive
    missingKeyArchive rfl rfl rfl

/-- C1 witness: the all-zero model on a singleton all-valid batch. -/
theorem policy_is_distribution_witness :
    ∃ p : Fin 1 → ℝ,
      (∀ i, (zeroModel.get_policy_and_value (fun _ => 0) (fun _ _ => 0)
        (fun _ => true)).1 i = some (p i)) ∧
      (∀ i, 0 ≤ p i) ∧ (∑ i, p i) = 1 ∧
      (∀ i, (fun _ : Fin 1 => true) i = false → p i = 0) :=
  policy_is_distribution zeroModel (fun _ => 0) (fun _ _ => 0) (fun _ => true)
    ⟨0, rfl⟩

/-- C9 witness: the all-zero model on a two-action batch with exactly the
first action valid. -/
theorem single_valid_action_policy_witness :
    (zeroModel.get_policy_and_value (fun _ => 0) (fun _ _ => 0)
      ![true, false]).1 0 = some 1 ∧
    ∀ j, j ≠ (0 : Fin 2) →
      (zeroModel.get_policy_and_value (fun _ => 0) (fun _ _ => 0)
        ![true, false]).1 j = some 0 :=
  single_valid_action_policy zeroModel (fun _ => 0) (fun _ _ => 0)
    ![true, false] 0 rfl (by decide)

/-- C10 witness: the all-zero model on a two-action batch with no valid
action. -/
theorem all_false_mask_policy_nan_witness :
    (∀ i, (zeroModel.forward (fun _ => 0) (fun _ _ => 0)
      (fun _ : Fin 2 => false)).1 i = ⊥) ∧
    (∀ i, (zeroModel.get_policy_and_value (fun _ => 0) (fun _ _ => 0)
      (fun _ : Fin 2 => false)).1 i = none) :=
  all_false_mask_policy_nan zeroModel (fun _ => 0) (fun _ _ => 0)
    (fun _ => false) (fun _ => rfl)

end PTCG
